import Mathlib

/-!
Shallow embedding of `deployment/deploy.py` (Travel Concierge deployment CLI).

The script is straight-line glue over a cloud SDK.  We embed it as pure
functions: every remote call's outcome is an explicit behaviour parameter
(`CreateBehavior`, `QueryBehavior`, `DeleteBehavior`), prints are collected
into an output list, and remote calls are recorded as an event trace.  Raised
Python exceptions are `Except.error`; `sys.exit(c)` and normal return are
`TermKind.exit`; an exception escaping `main` is `TermKind.uncaught` (CPython
maps it to process status 1, see `processExitCode`).
-/

namespace Deploy

/-- A Python exception value; only its printed message is observable here. -/
structure Err where
  msg : String
deriving DecidableEq

/-- Python `s.split(sep)` for a one-character separator (used as
`resource_id.split('/')` in `test_agent_engine` / `delete_agent_engine`). -/
def pySplit (s : String) (sep : Char) : List String :=
  (s.toList.splitOn sep).map (fun cs => String.mk cs)

/-- Python truthiness of an optional string (`None` and `""` are falsy). -/
def truthy : Option String → Bool
  | none => false
  | some s => !(s == "")

/-- Python `x or y` restricted to optional strings, as in
`args.project_id or os.getenv('GOOGLE_CLOUD_PROJECT')`. -/
def pyOr (x y : Option String) : Option String :=
  match x with
  | some s => if s == "" then y else some s
  | none => y

/-- The three fields `test_agent_engine` and `delete_agent_engine` read out of
a resource handle: `parts[1]`, `parts[3]`, `parts[5]` of
`resource_id.split('/')`.  `none` models the `IndexError` raised when a part
is absent (the parse sits outside the `try` block in both functions). -/
structure ParsedHandle where
  project_id : String
  location : String
  reasoning_engine_id : String
deriving DecidableEq

/-- `parts = resource_id.split('/'); parts[1]; parts[3]; parts[5]` —
the positional handle parse shared by lines 138-141 and 184-187. -/
def parseResourceHandle (resource_id : String) : Option ParsedHandle :=
  let parts := pySplit resource_id '/'
  match parts[1]?, parts[3]?, parts[5]? with
  | some p, some l, some eng => some (ParsedHandle.mk p l eng)
  | _, _, _ => none

/-! ## Packager (lines 63-78 of `create_agent_engine`) -/

/-- Does a filename match the glob pattern used by `rglob('*.py')`? -/
def hasPySuffix (name : String) : Bool :=
  name.toList.reverse.take 3 == ['y', 'p', '.']

/-- Is a root-relative path (list of segments) one of the files yielded by
`(root_dir / 'travel_concierge').rglob('*.py')`?  It must lie strictly below
the `travel_concierge` subdirectory and its basename must match `*.py`.
A missing subdirectory is the special case of no path starting with that
segment. -/
def isPkgSourceFile (p : List String) : Bool :=
  match p with
  | "travel_concierge" :: rest =>
    match rest.getLast? with
    | some name => hasPySuffix name
    | none => false
  | _ => false

/-- One archive member; `arcname` is the path recorded inside the zip. -/
structure ZipEntry where
  arcname : List String
deriving DecidableEq

/-- `config_files = ['pyproject.toml', 'README.md']`. -/
def config_files : List String := ["pyproject.toml", "README.md"]

/-- The zip-building loops of `create_agent_engine`: first every `*.py` file
under `travel_concierge/` with its root-relative path as arcname, then each
present config file under its bare name.  `files` is the set of files of the
root directory tree, as root-relative segment paths. -/
def packArchiveEntries (files : List (List String)) : List ZipEntry :=
  let z : List ZipEntry := []
  let z := (files.filter (fun p => isPkgSourceFile p)).foldl
    (fun z p => z ++ [ZipEntry.mk p]) z
  let z := config_files.foldl
    (fun z c => if files.contains [c] then z ++ [ZipEntry.mk [c]] else z) z
  z

/-! ## Remote operations client -/

/-- Observable actions: platform initialisation, local archive write, and the
remote calls (upload, create, query, delete) with the operation waits. -/
inductive Event where
  | initPlatform (project location : String)
  | writeArchive (entries : List ZipEntry)
  | uploadCall (bucket gcs_path local_path : String)
  | unlinkTemp (local_path : String)
  | createEngineCall (parent display_name package_uri : String)
  | operationWait
  | queryCall (name : String)
  | deleteCall (name : String)
  | deleteWait
deriving DecidableEq

instance exceptDecEq {ε α : Type} [DecidableEq ε] [DecidableEq α] :
    DecidableEq (Except ε α)
  | Except.ok a, Except.ok b =>
    if h : a = b then isTrue (congrArg Except.ok h)
    else isFalse (fun hh => h (Except.ok.inj hh))
  | Except.ok _, Except.error _ => isFalse (fun hh => Except.noConfusion hh)
  | Except.error _, Except.ok _ => isFalse (fun hh => Except.noConfusion hh)
  | Except.error e, Except.error f =>
    if h : e = f then isTrue (congrArg Except.error h)
    else isFalse (fun hh => h (Except.error.inj hh))

/-- The run of one operation: its prints, its event trace, and either a
returned value or a raised exception. -/
structure OpRun (α : Type) where
  output : List String
  events : List Event
  result : Except Err α
deriving DecidableEq

/-- `upload_to_gcs` returns `f"gs://{bucket_name}/{gcs_path}"`. -/
def upload_to_gcs (bucket_name gcs_path : String) : String :=
  "gs://" ++ bucket_name ++ "/" ++ gcs_path

/-- Outcomes of the three remote steps of the create flow, plus the resource
name the platform reports in `operation.metadata.name`. -/
structure CreateBehavior where
  upload : Except Err Unit
  createEngine : Except Err Unit
  opResult : Except Err Unit
  metadataName : String
deriving DecidableEq

/-- `create_agent_engine` (lines 45-130): init platform, build the archive,
upload it (object name keyed by the timestamp), unlink the temp file right
after the upload returns, create the reasoning engine, wait for the
operation, return `operation.metadata.name`.  Any raised step propagates. -/
def create_agent_engine (project_id location bucket_name display_name : String)
    (files : List (List String)) (timestamp : Nat) (tmp_name : String)
    (cb : CreateBehavior) : OpRun String :=
  let ev0 := [Event.initPlatform project_id location]
  let out0 := ["📦 Uploading agent code to Google Cloud Storage..."]
  let archive := packArchiveEntries files
  let ev1 := ev0 ++ [Event.writeArchive archive]
  let gcs_path := "agents/travel-concierge-" ++ toString timestamp ++ ".zip"
  match cb.upload with
  | Except.error e =>
    { output := out0, events := ev1 ++ [Event.uploadCall bucket_name gcs_path tmp_name],
      result := Except.error e }
  | Except.ok _ =>
    let gcs_uri := upload_to_gcs bucket_name gcs_path
    let ev2 := ev1 ++ [Event.uploadCall bucket_name gcs_path tmp_name,
      Event.unlinkTemp tmp_name]
    let out1 := out0 ++ ["✅ Agent code uploaded to: " ++ gcs_uri,
      "🚀 Creating Agent Engine resource..."]
    let parent := "projects/" ++ project_id ++ "/locations/" ++ location
    match cb.createEngine with
    | Except.error e =>
      { output := out1,
        events := ev2 ++ [Event.createEngineCall parent display_name gcs_uri],
        result := Except.error e }
    | Except.ok _ =>
      let out2 := out1 ++ ["⏳ Waiting for deployment to complete..."]
      let ev3 := ev2 ++ [Event.createEngineCall parent display_name gcs_uri,
        Event.operationWait]
      match cb.opResult with
      | Except.error e => { output := out2, events := ev3, result := Except.error e }
      | Except.ok _ =>
        { output := out2 ++ ["✅ Agent Engine created successfully!",
            "📋 Resource ID: " ++ cb.metadataName],
          events := ev3, result := Except.ok cb.metadataName }

/-- One streamed response chunk (`chunk.content`, `chunk.metadata`); empty
strings are the falsy "absent" case of the Python truthiness tests. -/
structure Chunk where
  content : String
  metadata : String
deriving DecidableEq

/-- Behaviour of `client.query_reasoning_engine` plus the iteration over its
response: either the call itself raises, or it yields `cs` and then the
iteration either ends (`none`) or raises mid-stream (`some e`). -/
inductive QueryBehavior where
  | raiseOnCall (e : Err)
  | chunks (cs : List Chunk) (midErr : Option Err)
deriving DecidableEq

/-- Does the mocked client raise at some point of the query or iteration? -/
def queryRaises : QueryBehavior → Bool
  | QueryBehavior.raiseOnCall _ => true
  | QueryBehavior.chunks _ (some _) => true
  | QueryBehavior.chunks _ none => false

/-- The loop body of `test_agent_engine`: print content and metadata of a
chunk when truthy. -/
def printChunk (c : Chunk) : List String :=
  (if c.content == "" then [] else ["📝 " ++ c.content]) ++
  (if c.metadata == "" then [] else ["🔍 Metadata: " ++ c.metadata])

/-- `test_agent_engine` (lines 133-176): parse the handle (outside the `try`,
so a short handle raises), init platform, query the engine and iterate the
response inside `try`, converting any exception there into prints plus a
`false` return. -/
def test_agent_engine (resource_id : String) (test_query : String)
    (qb : QueryBehavior) : OpRun Bool :=
  let out0 := ["🧪 Testing agent with query: \x27" ++ test_query ++ "\x27"]
  match parseResourceHandle resource_id with
  | none =>
    { output := out0, events := [],
      result := Except.error (Err.mk "IndexError: list index out of range") }
  | some h =>
    let ev0 := [Event.initPlatform h.project_id h.location,
      Event.queryCall resource_id]
    match qb with
    | QueryBehavior.raiseOnCall e =>
      { output := out0 ++ ["❌ Error testing agent: " ++ e.msg],
        events := ev0, result := Except.ok false }
    | QueryBehavior.chunks cs midErr =>
      let chunkOut := cs.foldl (fun acc c => acc ++ printChunk c) []
      match midErr with
      | some e =>
        { output := out0 ++ ["✅ Agent response received:"] ++ chunkOut ++
            ["❌ Error testing agent: " ++ e.msg],
          events := ev0, result := Except.ok false }
      | none =>
        { output := out0 ++ ["✅ Agent response received:"] ++ chunkOut,
          events := ev0, result := Except.ok true }

/-- The default test query of `test_agent_engine`. -/
def default_test_query : String := "Looking for inspirations around the Americas"

/-- Behaviour of `client.delete_reasoning_engine` and the following
`operation.result()`: raise at the request, raise at the wait, or succeed. -/
inductive DeleteBehavior where
  | raiseOnCall (e : Err)
  | raiseOnWait (e : Err)
  | ok
deriving DecidableEq

/-- Does the mocked client raise during the delete request or its wait? -/
def deleteRaises : DeleteBehavior → Bool
  | DeleteBehavior.raiseOnCall _ => true
  | DeleteBehavior.raiseOnWait _ => true
  | DeleteBehavior.ok => false

/-- `delete_agent_engine` (lines 179-205): parse the handle (outside the
`try`), init platform, then delete and wait inside `try`, converting any
exception there into prints plus a `false` return. -/
def delete_agent_engine (resource_id : String) (db : DeleteBehavior) : OpRun Bool :=
  let out0 := ["🗑️  Deleting Agent Engine: " ++ resource_id]
  match parseResourceHandle resource_id with
  | none =>
    { output := out0, events := [],
      result := Except.error (Err.mk "IndexError: list index out of range") }
  | some h =>
    let ev0 := [Event.initPlatform h.project_id h.location]
    match db with
    | DeleteBehavior.raiseOnCall e =>
      { output := out0 ++ ["❌ Error deleting agent: " ++ e.msg],
        events := ev0 ++ [Event.deleteCall resource_id],
        result := Except.ok false }
    | DeleteBehavior.raiseOnWait e =>
      { output := out0 ++ ["❌ Error deleting agent: " ++ e.msg],
        events := ev0 ++ [Event.deleteCall resource_id, Event.deleteWait],
        result := Except.ok false }
    | DeleteBehavior.ok =>
      { output := out0 ++ ["✅ Agent Engine deleted successfully!"],
        events := ev0 ++ [Event.deleteCall resource_id, Event.deleteWait],
        result := Except.ok true }

/-! ## Credentials (`get_credentials`, lines 23-31) -/

/-- What `get_credentials` hands to the storage client. -/
inductive Credentials where
  | serviceAccountFile (path : String)
  | ambientDefault
deriving DecidableEq

/-- `get_credentials`: `os.getenv('GOOGLE_APPLICATION_CREDENTIALS',
'credentials.json')`, then file credentials when that path exists, else
`None` (Application Default Credentials).  `pathExists` abstracts
`os.path.exists`. -/
def get_credentials (gac_env : Option String) (pathExists : String → Bool) :
    Credentials :=
  let credentials_path := gac_env.getD "credentials.json"
  if pathExists credentials_path then
    Credentials.serviceAccountFile credentials_path
  else
    Credentials.ambientDefault

/-! ## CLI dispatcher (`main`, lines 208-275) -/

/-- The parsed argparse namespace; `none` is an absent string flag. -/
structure Args where
  create : Bool
  delete : Bool
  quicktest : Bool
  resource_id : Option String
  project_id : Option String
  location : String
  bucket : Option String
  display_name : String
deriving DecidableEq

/-- The two configuration environment variables `main` reads. -/
structure Env where
  GOOGLE_CLOUD_PROJECT : Option String
  GOOGLE_CLOUD_STORAGE_BUCKET : Option String
deriving DecidableEq

/-- The command branch of the `if/elif` chain that a run enters. -/
inductive Cmd where
  | create
  | quicktest
  | delete
deriving DecidableEq

/-- How the process ends: an explicit `sys.exit` / normal return, or an
exception escaping `main`. -/
inductive TermKind where
  | exit (code : Nat)
  | uncaught (e : Err)
deriving DecidableEq

/-- CPython maps an uncaught exception to process exit status 1. -/
def processExitCode : TermKind → Nat
  | TermKind.exit c => c
  | TermKind.uncaught _ => 1

/-- The whole run of `main`: prints, remote-call trace, which command branch
was entered (`none` when validation failed or no flag was set), and the
termination. -/
structure RunResult where
  output : List String
  events : List Event
  dispatched : Option Cmd
  term : TermKind
deriving DecidableEq

/-- Everything outside the program that a run consumes: the source tree, the
clock, the temp-file name, and the three mocked client behaviours. -/
structure World where
  files : List (List String)
  timestamp : Nat
  tmp_name : String
  cb : CreateBehavior
  qb : QueryBehavior
  db : DeleteBehavior
deriving DecidableEq

/-- Error line printed when project id is unresolved (line 226). -/
def projectErrMsg : String :=
  "❌ Error: GOOGLE_CLOUD_PROJECT environment variable or --project_id required"

/-- Error line printed when bucket is unresolved (line 230). -/
def bucketErrMsg : String :=
  "❌ Error: GOOGLE_CLOUD_STORAGE_BUCKET environment variable or --bucket required"

/-- Stand-in for the argparse help text printed by `parser.print_help()`. -/
def usage_text : String :=
  "usage: deploy.py [-h] [--create] [--delete] [--quicktest] [--resource_id RESOURCE_ID] [--project_id PROJECT_ID] [--location LOCATION] [--bucket BUCKET] [--display_name DISPLAY_NAME]"

/-- The create flow exactly as `main` invokes it, with the resolved
configuration. -/
def createRun (a : Args) (e : Env) (w : World) : OpRun String :=
  create_agent_engine ((pyOr a.project_id e.GOOGLE_CLOUD_PROJECT).getD "")
    a.location ((pyOr a.bucket e.GOOGLE_CLOUD_STORAGE_BUCKET).getD "")
    a.display_name w.files w.timestamp w.tmp_name w.cb

/-- The test flow exactly as `main` invokes it (default query). -/
def testRun (a : Args) (w : World) : OpRun Bool :=
  test_agent_engine (a.resource_id.getD "") default_test_query w.qb

/-- The delete flow exactly as `main` invokes it. -/
def deleteRun (a : Args) (w : World) : OpRun Bool :=
  delete_agent_engine (a.resource_id.getD "") w.db

/-- `main` (lines 208-275): resolve configuration, validate it, print it,
then dispatch on `--create` / `--quicktest` / `--delete` in that `if/elif`
order, else print help.  Exit codes follow the source exactly. -/
def main (a : Args) (e : Env) (w : World) : RunResult :=
  let project_id := pyOr a.project_id e.GOOGLE_CLOUD_PROJECT
  let bucket_name := pyOr a.bucket e.GOOGLE_CLOUD_STORAGE_BUCKET
  if !truthy project_id then
    { output := [projectErrMsg], events := [], dispatched := none,
      term := TermKind.exit 1 }
  else if !truthy bucket_name then
    { output := [bucketErrMsg], events := [], dispatched := none,
      term := TermKind.exit 1 }
  else
    let configOut := ["🔧 Configuration:",
      "   Project ID: " ++ project_id.getD "",
      "   Location: " ++ a.location,
      "   GCS Bucket: " ++ bucket_name.getD "",
      ""]
    if a.create then
      let r := createRun a e w
      match r.result with
      | Except.ok resource_id =>
        { output := configOut ++ r.output ++ ["", "🎉 Deployment successful!",
            "📋 Resource ID: " ++ resource_id, "", "To test the agent, run:",
            "python deployment/deploy.py --quicktest --resource_id=" ++ resource_id],
          events := r.events, dispatched := some Cmd.create,
          term := TermKind.exit 0 }
      | Except.error err =>
        { output := configOut ++ r.output ++ ["❌ Error creating agent: " ++ err.msg],
          events := r.events, dispatched := some Cmd.create,
          term := TermKind.exit 1 }
    else if a.quicktest then
      if !truthy a.resource_id then
        { output := configOut ++ ["❌ Error: --resource_id required for testing"],
          events := [], dispatched := some Cmd.quicktest,
          term := TermKind.exit 1 }
      else
        let r := testRun a w
        match r.result with
        | Except.error err =>
          { output := configOut ++ r.output, events := r.events,
            dispatched := some Cmd.quicktest, term := TermKind.uncaught err }
        | Except.ok b =>
          { output := configOut ++ r.output, events := r.events,
            dispatched := some Cmd.quicktest,
            term := TermKind.exit (if b then 0 else 1) }
    else if a.delete then
      if !truthy a.resource_id then
        { output := configOut ++ ["❌ Error: --resource_id required for deletion"],
          events := [], dispatched := some Cmd.delete,
          term := TermKind.exit 1 }
      else
        let r := deleteRun a w
        match r.result with
        | Except.error err =>
          { output := configOut ++ r.output, events := r.events,
            dispatched := some Cmd.delete, term := TermKind.uncaught err }
        | Except.ok b =>
          { output := configOut ++ r.output, events := r.events,
            dispatched := some Cmd.delete,
            term := TermKind.exit (if b then 0 else 1) }
    else
      { output := configOut ++ [usage_text], events := [], dispatched := none,
        term := TermKind.exit 0 }

/-! ## Spec-side predicates and concrete sample inputs -/

/-- Did an operation raise (model of an exception propagating out)? -/
def isErrE {α : Type} : Except Err α → Bool
  | Except.error _ => true
  | Except.ok _ => false

/-- Did an operation return the value `false` (rather than raise)? -/
def retFalse : Except Err Bool → Bool
  | Except.ok b => !b
  | Except.error _ => false

/-- Both required configuration values resolve to truthy strings. -/
def configOk (a : Args) (e : Env) : Bool :=
  truthy (pyOr a.project_id e.GOOGLE_CLOUD_PROJECT) &&
  truthy (pyOr a.bucket e.GOOGLE_CLOUD_STORAGE_BUCKET)

/-- Modelled from the claim wording of the exit-code contract: the listed
exit-1 cases are a configuration error (missing project id, missing bucket,
or a missing resource id for a dispatched test/delete), an exception raised
during the create flow, or a `false` result returned by test or delete. -/
def c8ListedFailure (a : Args) (e : Env) (w : World) : Bool :=
  (!configOk a e) ||
  (configOk a e && !a.create && (a.quicktest || a.delete) &&
    !truthy a.resource_id) ||
  (configOk a e && a.create && isErrE (createRun a e w).result) ||
  (configOk a e && !a.create && a.quicktest && truthy a.resource_id &&
    retFalse (testRun a w).result) ||
  (configOk a e && !a.create && !a.quicktest && a.delete && truthy a.resource_id &&
    retFalse (deleteRun a w).result)

/-- The exit-1 case the listed contract misses: a dispatched test or delete
whose handle parse raises, so the exception escapes `main` and the
interpreter terminates the process with status 1. -/
def c8UncaughtEscape (a : Args) (e : Env) (w : World) : Bool :=
  configOk a e && !a.create && truthy a.resource_id &&
  ((a.quicktest && isErrE (testRun a w).result) ||
   (!a.quicktest && a.delete && isErrE (deleteRun a w).result))

/-- Create behaviour in which every remote step succeeds. -/
def cbOk : CreateBehavior :=
  CreateBehavior.mk (Except.ok ()) (Except.ok ()) (Except.ok ())
    "projects/p1/locations/us-central1/reasoningEngines/abc123"

/-- A world whose mocked platform succeeds everywhere. -/
def wOk : World :=
  World.mk [] 0 "tmp.zip" cbOk (QueryBehavior.chunks [] none) DeleteBehavior.ok

/-- An invocation with no flags and no configuration at all. -/
def argsNone : Args :=
  Args.mk false false false none none "us-central1" none "Travel Concierge Agent"

/-- A `--quicktest` invocation with full configuration but a one-segment
resource handle. -/
def argsQuickBad : Args :=
  Args.mk false false true (some "x") (some "p1") "us-central1" (some "b1")
    "Travel Concierge Agent"

/-- An invocation supplying both `--create` and `--quicktest`. -/
def argsCreateQuick : Args :=
  Args.mk true false true
    (some "projects/p1/locations/us-central1/reasoningEngines/abc123")
    (some "p1") "us-central1" (some "b1") "Travel Concierge Agent"

/-- A `--quicktest` invocation with a resource id but no configuration. -/
def argsQuickNoCfg : Args :=
  Args.mk false false true
    (some "projects/p1/locations/us-central1/reasoningEngines/abc123")
    none "us-central1" none "Travel Concierge Agent"

/-- An empty environment. -/
def envNone : Env := Env.mk none none

/-- An environment supplying both configuration variables. -/
def envFull : Env := Env.mk (some "p1") (some "b1")

/-! ## Helper lemmas -/

theorem main_no_project (a : Args) (e : Env) (w : World)
    (h : truthy (pyOr a.project_id e.GOOGLE_CLOUD_PROJECT) = false) :
    main a e w = RunResult.mk [projectErrMsg] [] none (TermKind.exit 1) := by
  simp [main, h]

theorem main_no_bucket (a : Args) (e : Env) (w : World)
    (hp : truthy (pyOr a.project_id e.GOOGLE_CLOUD_PROJECT) = true)
    (hb : truthy (pyOr a.bucket e.GOOGLE_CLOUD_STORAGE_BUCKET) = false) :
    main a e w = RunResult.mk [bucketErrMsg] [] none (TermKind.exit 1) := by
  simp [main, hp, hb]

theorem foldl_append_map {α β : Type} (f : α → β) :
    ∀ (l : List α) (init : List β),
      l.foldl (fun z p => z ++ [f p]) init = init ++ l.map f := by
  intro l
  induction l with
  | nil => intro init; simp
  | cons a t ih => intro init; simp [List.foldl, ih]

theorem foldl_filter_append {α β : Type} (g : α → Bool) (f : α → β) :
    ∀ (l : List α) (init : List β),
      l.foldl (fun z c => if g c then z ++ [f c] else z) init =
        init ++ (l.filter g).map f := by
  intro l
  induction l with
  | nil => intro init; simp
  | cons a t ih =>
    intro init
    rcases hg : g a with _ | _
    · simp [List.foldl, hg, ih, List.filter_cons_of_neg]
    · simp [List.foldl, hg, ih, List.filter_cons_of_pos]

theorem packArchiveEntries_eq (files : List (List String)) :
    packArchiveEntries files =
      (files.filter (fun p => isPkgSourceFile p)).map ZipEntry.mk ++
      (config_files.filter (fun c => files.contains [c])).map
        (fun c => ZipEntry.mk [c]) := by
  have h1 : packArchiveEntries files =
      config_files.foldl
        (fun z c => if files.contains [c] then z ++ [ZipEntry.mk [c]] else z)
        ((files.filter (fun p => isPkgSourceFile p)).foldl
          (fun z p => z ++ [ZipEntry.mk p]) []) := rfl
  rw [h1, foldl_append_map ZipEntry.mk,
    foldl_filter_append (fun c => files.contains [c]) (fun c => ZipEntry.mk [c])]
  simp

/-! ## Claim theorems -/

/-- C4: resource-handle parsing in test and delete splits the handle on `/`
and takes segment 1 as project and segment 3 as location; on
`"projects/P/locations/L/reasoningEngines/E"` it extracts `"P"` and `"L"`.
(`parseResourceHandle` is the parse both `test_agent_engine` and
`delete_agent_engine` apply before their `try` blocks.) -/
theorem resource_handle_positional_parse :
    (∀ s p l eng, (pySplit s '/')[1]? = some p →
      (pySplit s '/')[3]? = some l → (pySplit s '/')[5]? = some eng →
      parseResourceHandle s = some (ParsedHandle.mk p l eng)) ∧
    parseResourceHandle "projects/P/locations/L/reasoningEngines/E" =
      some (ParsedHandle.mk "P" "L" "E") := by
  constructor
  · intro s p l eng h1 h3 h5
    simp [parseResourceHandle, h1, h3, h5]
  · decide

theorem resource_handle_positional_parse_witness :
    parseResourceHandle "projects/a/locations/b/reasoningEngines/c" =
      some (ParsedHandle.mk "a" "b" "c") :=
  resource_handle_positional_parse.1 _ "a" "b" "c" (by decide) (by decide)
    (by decide)

/-- C7 counterexample: with `GOOGLE_APPLICATION_CREDENTIALS` absent but a
file named `credentials.json` present, `get_credentials` loads service
account credentials from that file instead of using ambient default
credentials, refuting the claim that an absent variable means ambient
credentials. -/
theorem credentials_default_path_counterexample :
    get_credentials none (fun p => p == "credentials.json") =
      Credentials.serviceAccountFile "credentials.json" := by decide

/-- C7 (amended): the variable is read as the credentials path with default
`credentials.json`; file credentials are used exactly when the resolved path
exists, ambient default credentials otherwise. -/
theorem credentials_resolution :
    ∀ pe : String → Bool,
      (∀ s, pe s = true →
        get_credentials (some s) pe = Credentials.serviceAccountFile s) ∧
      (∀ s, pe s = false →
        get_credentials (some s) pe = Credentials.ambientDefault) ∧
      (pe "credentials.json" = true →
        get_credentials none pe =
          Credentials.serviceAccountFile "credentials.json") ∧
      (pe "credentials.json" = false →
        get_credentials none pe = Credentials.ambientDefault) := by
  intro pe
  refine ⟨fun s h => ?_, fun s h => ?_, fun h => ?_, fun h => ?_⟩ <;>
    simp [get_credentials, h]

theorem credentials_resolution_witness :
    get_credentials none (fun _ => false) = Credentials.ambientDefault :=
  (credentials_resolution (fun _ => false)).2.2.2 rfl

/-- C2: whenever project id (or, with project id present, bucket) resolves to
nothing truthy, `main` prints exactly the error line naming the absent field
and exits with code 1 with an empty remote-event trace (no network call). -/
theorem missing_config_exits_before_remote :
    ∀ (a : Args) (e : Env) (w : World),
      (truthy (pyOr a.project_id e.GOOGLE_CLOUD_PROJECT) = false →
        main a e w = RunResult.mk [projectErrMsg] [] none (TermKind.exit 1)) ∧
      (truthy (pyOr a.project_id e.GOOGLE_CLOUD_PROJECT) = true →
        truthy (pyOr a.bucket e.GOOGLE_CLOUD_STORAGE_BUCKET) = false →
        main a e w = RunResult.mk [bucketErrMsg] [] none (TermKind.exit 1)) :=
  fun a e w => ⟨main_no_project a e w, main_no_bucket a e w⟩

theorem missing_config_exits_before_remote_witness :
    main argsNone envNone wOk =
      RunResult.mk [projectErrMsg] [] none (TermKind.exit 1) ∧
    main argsNone (Env.mk (some "p1") none) wOk =
      RunResult.mk [bucketErrMsg] [] none (TermKind.exit 1) :=
  ⟨(missing_config_exits_before_remote argsNone envNone wOk).1 (by decide),
   (missing_config_exits_before_remote argsNone (Env.mk (some "p1") none) wOk).2
     (by decide) (by decide)⟩

/-- C5: the archive holds exactly N+M entries — the N `*.py` files under
`travel_concierge/` keeping their root-relative arcnames, then the M present
config files under bare names — and when no source file matches (in
particular when the subdirectory is absent) the archive is still produced
with only the config entries. -/
theorem archive_entry_count_and_paths :
    ∀ files : List (List String),
      (packArchiveEntries files).length =
        (files.filter (fun p => isPkgSourceFile p)).length +
        (config_files.filter (fun c => files.contains [c])).length ∧
      packArchiveEntries files =
        (files.filter (fun p => isPkgSourceFile p)).map ZipEntry.mk ++
        (config_files.filter (fun c => files.contains [c])).map
          (fun c => ZipEntry.mk [c]) ∧
      (files.filter (fun p => isPkgSourceFile p) = [] →
        packArchiveEntries files =
          (config_files.filter (fun c => files.contains [c])).map
            (fun c => ZipEntry.mk [c])) := by
  intro files
  refine ⟨?_, packArchiveEntries_eq files, fun h => ?_⟩
  · rw [packArchiveEntries_eq files]
    simp
  · rw [packArchiveEntries_eq files, h]
    simp

theorem archive_entry_count_and_paths_witness :
    packArchiveEntries [["README.md"]] =
      (config_files.filter (fun c => [["README.md"]].contains [c])).map
        (fun c => ZipEntry.mk [c]) :=
  (archive_entry_count_and_paths [["README.md"]]).2.2 (by decide)

/-- C1: whenever the mocked remote client raises — at the query call or
mid-iteration for test, at the delete request or its wait for delete — the
operation catches the exception, prints the prefixed diagnostic, and returns
`false` instead of raising (given a handle the pre-`try` parse accepts, since
otherwise the client is never reached). -/
theorem test_delete_convert_exceptions :
    (∀ rid q qb h, parseResourceHandle rid = some h → queryRaises qb = true →
      (test_agent_engine rid q qb).result = Except.ok false ∧
      ∃ m, ("❌ Error testing agent: " ++ m) ∈ (test_agent_engine rid q qb).output) ∧
    (∀ rid db h, parseResourceHandle rid = some h → deleteRaises db = true →
      (delete_agent_engine rid db).result = Except.ok false ∧
      ∃ m, ("❌ Error deleting agent: " ++ m) ∈ (delete_agent_engine rid db).output) := by
  constructor
  · intro rid q qb h hp hq
    rcases qb with e | ⟨cs, midErr⟩
    · constructor <;> simp [test_agent_engine, hp]
      exact ⟨e.msg, Or.inr rfl⟩
    · rcases midErr with _ | e
      · simp [queryRaises] at hq
      · constructor <;> simp [test_agent_engine, hp]
        exact ⟨e.msg, Or.inr (Or.inr (Or.inr rfl))⟩
  · intro rid db h hp hd
    rcases db with e | e | _
    · constructor <;> simp [delete_agent_engine, hp]
      exact ⟨e.msg, Or.inr rfl⟩
    · constructor <;> simp [delete_agent_engine, hp]
      exact ⟨e.msg, Or.inr rfl⟩
    · simp [deleteRaises] at hd

theorem test_delete_convert_exceptions_witness :
    (test_agent_engine "projects/p1/locations/us-central1/reasoningEngines/abc123"
      default_test_query (QueryBehavior.raiseOnCall (Err.mk "boom"))).result =
        Except.ok false ∧
    (delete_agent_engine "projects/p1/locations/us-central1/reasoningEngines/abc123"
      (DeleteBehavior.raiseOnCall (Err.mk "boom"))).result = Except.ok false :=
  ⟨(test_delete_convert_exceptions.1 _ _ _
      (ParsedHandle.mk "p1" "us-central1" "abc123") (by decide) (by decide)).1,
   (test_delete_convert_exceptions.2 _ _
      (ParsedHandle.mk "p1" "us-central1" "abc123") (by decide) (by decide)).1⟩

/-- C3: when the upload call returns successfully, the create flow unlinks
the local temporary archive before the create-resource request is issued,
whatever the later create call or operation wait do. -/
theorem temp_archive_unlinked_before_create_call :
    ∀ (p loc b dn : String) (files : List (List String)) (ts : Nat)
      (tmp : String) (cb : CreateBehavior), cb.upload = Except.ok () →
      ∃ l1 l2, (create_agent_engine p loc b dn files ts tmp cb).events =
          l1 ++ Event.unlinkTemp tmp :: l2 ∧
        (∀ pr d u, Event.createEngineCall pr d u ∉ l1) ∧
        (∃ pr d u, Event.createEngineCall pr d u ∈ l2) := by
  intro p loc b dn files ts tmp cb hu
  rcases hc : cb.createEngine with e | e0
  · refine ⟨[Event.initPlatform p loc, Event.writeArchive (packArchiveEntries files),
      Event.uploadCall b ("agents/travel-concierge-" ++ toString ts ++ ".zip") tmp],
      [Event.createEngineCall ("projects/" ++ p ++ "/locations/" ++ loc) dn
        (upload_to_gcs b ("agents/travel-concierge-" ++ toString ts ++ ".zip"))],
      ?_, ?_, ?_⟩
    · simp [create_agent_engine, hu, hc]
    · intro pr d u2
      simp
    · exact ⟨"projects/" ++ p ++ "/locations/" ++ loc, dn,
        upload_to_gcs b ("agents/travel-concierge-" ++ toString ts ++ ".zip"),
        by simp⟩
  · refine ⟨[Event.initPlatform p loc, Event.writeArchive (packArchiveEntries files),
      Event.uploadCall b ("agents/travel-concierge-" ++ toString ts ++ ".zip") tmp],
      [Event.createEngineCall ("projects/" ++ p ++ "/locations/" ++ loc) dn
        (upload_to_gcs b ("agents/travel-concierge-" ++ toString ts ++ ".zip")),
        Event.operationWait],
      ?_, ?_, ?_⟩
    · rcases ho : cb.opResult with e2 | o2 <;>
        simp [create_agent_engine, hu, hc, ho]
    · intro pr d u2
      simp
    · exact ⟨"projects/" ++ p ++ "/locations/" ++ loc, dn,
        upload_to_gcs b ("agents/travel-concierge-" ++ toString ts ++ ".zip"),
        by simp⟩

theorem temp_archive_unlinked_before_create_call_witness :
    ∃ l1 l2, (create_agent_engine "p1" "us-central1" "b1"
        "Travel Concierge Agent" [] 0 "tmp.zip" cbOk).events =
        l1 ++ Event.unlinkTemp "tmp.zip" :: l2 ∧
      (∀ pr d u, Event.createEngineCall pr d u ∉ l1) ∧
      (∃ pr d u, Event.createEngineCall pr d u ∈ l2) :=
  temp_archive_unlinked_before_create_call "p1" "us-central1" "b1"
    "Travel Concierge Agent" [] 0 "tmp.zip" cbOk rfl

/-- C6 counterexample: an invocation with none of the three command flags but
with project id unresolved exits with code 1 and never prints the usage text,
refuting the claim that every no-flag invocation prints help and exits 0. -/
theorem help_requires_valid_config_counterexample :
    (main argsNone envNone wOk).term = TermKind.exit 1 ∧
    usage_text ∉ (main argsNone envNone wOk).output := by decide

/-- C6 (amended): an invocation with none of the three command flags whose
configuration resolves both project id and bucket prints the usage text and
exits with code 0. -/
theorem no_flags_valid_config_prints_help :
    ∀ (a : Args) (e : Env) (w : World), a.create = false → a.quicktest = false →
      a.delete = false →
      truthy (pyOr a.project_id e.GOOGLE_CLOUD_PROJECT) = true →
      truthy (pyOr a.bucket e.GOOGLE_CLOUD_STORAGE_BUCKET) = true →
      (main a e w).term = TermKind.exit 0 ∧
      usage_text ∈ (main a e w).output := by
  intro a e w hc hq hd hp hb
  simp [main, hc, hq, hd, hp, hb]

theorem no_flags_valid_config_prints_help_witness :
    (main argsNone envFull wOk).term = TermKind.exit 0 ∧
    usage_text ∈ (main argsNone envFull wOk).output :=
  no_flags_valid_config_prints_help argsNone envFull wOk rfl rfl rfl
    (by decide) (by decide)

/-- C10: any invocation — in particular a `--quicktest` or `--delete` one,
although test and delete never read project id or bucket — exits with code 1
before the dispatch and before any remote call when project id or bucket is
unresolved. -/
theorem config_gate_blocks_test_delete :
    ∀ (a : Args) (e : Env) (w : World),
      (a.quicktest = true ∨ a.delete = true) → configOk a e = false →
      (main a e w).term = TermKind.exit 1 ∧ (main a e w).events = [] ∧
      (main a e w).dispatched = none := by
  intro a e w _ hc
  rcases hp : truthy (pyOr a.project_id e.GOOGLE_CLOUD_PROJECT) with _ | _
  · rw [main_no_project a e w hp]
    exact ⟨rfl, rfl, rfl⟩
  · have hb : truthy (pyOr a.bucket e.GOOGLE_CLOUD_STORAGE_BUCKET) = false := by
      simpa [configOk, hp] using hc
    rw [main_no_bucket a e w hp hb]
    exact ⟨rfl, rfl, rfl⟩

theorem config_gate_blocks_test_delete_witness :
    (main argsQuickNoCfg envNone wOk).term = TermKind.exit 1 ∧
    (main argsQuickNoCfg envNone wOk).events = [] ∧
    (main argsQuickNoCfg envNone wOk).dispatched = none :=
  config_gate_blocks_test_delete argsQuickNoCfg envNone wOk (Or.inl (by decide))
    (by decide)

/-- C9: a combination of several command flags is never rejected; whenever
the configuration passes validation (so that dispatch is reached at all),
exactly one command branch is entered, chosen by the fixed `if/elif`
precedence create over quicktest over delete. -/
theorem flag_precedence :
    ∀ (a : Args) (e : Env) (w : World), configOk a e = true →
      ((a.create && a.quicktest) || (a.create && a.delete) ||
        (a.quicktest && a.delete)) = true →
      (main a e w).dispatched =
        some (if a.create then Cmd.create
          else if a.quicktest then Cmd.quicktest else Cmd.delete) := by
  intro a e w hcfg hmulti
  have hp : truthy (pyOr a.project_id e.GOOGLE_CLOUD_PROJECT) = true := by
    have := hcfg
    simp [configOk, Bool.and_eq_true] at this
    exact this.1
  have hb : truthy (pyOr a.bucket e.GOOGLE_CLOUD_STORAGE_BUCKET) = true := by
    have := hcfg
    simp [configOk, Bool.and_eq_true] at this
    exact this.2
  rcases hc : a.create with _ | _
  · have hq : a.quicktest = true := by
      rcases hq : a.quicktest with _ | _
      · simp [hc, hq] at hmulti
      · rfl
    have hd : a.delete = true := by
      rcases hd : a.delete with _ | _
      · simp [hc, hd] at hmulti
      · rfl
    rcases hr : truthy a.resource_id with _ | _
    · simp [main, hp, hb, hc, hq, hr]
    · rcases ht : (testRun a w).result with e1 | b <;>
        simp [main, hp, hb, hc, hq, hr, ht]
  · rcases hcr : (createRun a e w).result with e1 | v <;>
      simp [main, hp, hb, hc, hcr]

theorem flag_precedence_witness :
    (main argsCreateQuick envFull wOk).dispatched =
      some (if argsCreateQuick.create then Cmd.create
        else if argsCreateQuick.quicktest then Cmd.quicktest else Cmd.delete) :=
  flag_precedence argsCreateQuick envFull wOk (by decide) (by decide)

/-- C8 counterexample: a `--quicktest` run with full configuration and the
malformed handle `"x"` ends with process exit status 1 — the handle parse
raises outside the `try` block and the exception escapes `main` — although
none of the failure cases listed by the claim holds, refuting "1 in exactly
these failure cases". -/
theorem exit_code_contract_counterexample :
    processExitCode (main argsQuickBad envNone wOk).term = 1 ∧
    c8ListedFailure argsQuickBad envNone wOk = false := by decide

/-- C8 (amended): the process exit status is 0 on success or help-display
and 1 exactly on the listed failure cases — configuration error, exception
during create, `false` from test/delete — or on an uncaught exception
escaping a dispatched test/delete (a malformed resource handle), which the
interpreter also turns into status 1. -/
theorem exit_code_characterisation :
    ∀ (a : Args) (e : Env) (w : World),
      processExitCode (main a e w).term =
        if c8ListedFailure a e w || c8UncaughtEscape a e w then 1 else 0 := by
  intro a e w
  rcases hp : truthy (pyOr a.project_id e.GOOGLE_CLOUD_PROJECT) with _ | _
  · simp [main, c8ListedFailure, c8UncaughtEscape, configOk, hp, processExitCode]
  · rcases hb : truthy (pyOr a.bucket e.GOOGLE_CLOUD_STORAGE_BUCKET) with _ | _
    · simp [main, c8ListedFailure, c8UncaughtEscape, configOk, hp, hb,
        processExitCode]
    · rcases hc : a.create with _ | _
      · rcases hq : a.quicktest with _ | _
        · rcases hd : a.delete with _ | _
          · simp [main, c8ListedFailure, c8UncaughtEscape, configOk, hp, hb,
              hc, hq, hd, processExitCode]
          · rcases hr : truthy a.resource_id with _ | _
            · simp [main, c8ListedFailure, c8UncaughtEscape, configOk, hp, hb,
                hc, hq, hd, hr, processExitCode]
            · rcases hdr : (deleteRun a w).result with e1 | b
              · simp [main, c8ListedFailure, c8UncaughtEscape, configOk, hp,
                  hb, hc, hq, hd, hr, hdr, processExitCode, retFalse, isErrE]
              · rcases b with _ | _ <;>
                  simp [main, c8ListedFailure, c8UncaughtEscape, configOk, hp,
                    hb, hc, hq, hd, hr, hdr, processExitCode, retFalse, isErrE]
        · rcases hr : truthy a.resource_id with _ | _
          · simp [main, c8ListedFailure, c8UncaughtEscape, configOk, hp, hb,
              hc, hq, hr, processExitCode]
          · rcases htr : (testRun a w).result with e1 | b
            · simp [main, c8ListedFailure, c8UncaughtEscape, configOk, hp, hb,
                hc, hq, hr, htr, processExitCode, retFalse, isErrE]
            · rcases b with _ | _ <;>
                simp [main, c8ListedFailure, c8UncaughtEscape, configOk, hp,
                  hb, hc, hq, hr, htr, processExitCode, retFalse, isErrE]
      · rcases hcr : (createRun a e w).result with e1 | v <;>
          simp [main, c8ListedFailure, c8UncaughtEscape, configOk, hp, hb, hc,
            hcr, processExitCode, isErrE]

end Deploy
